import Mathlib

/-!
Shallow embedding of the EnergyGuard AI core (src/energyguard_ai.py):
the `EnergyRecord` data entity, the append-only `EnergyHistory`, the
`EnergyAnalytics` pure functions and the `KeenAI.analyze` decision engine.

Python real numbers are modelled as `ℚ` (every literal in the source is an
exact decimal, so all formulas are exact over `ℚ`); Python's built-in
`round(x, n)`, which rounds half to even, is modelled by `pyRound`; the
Python division `usage / expected`, which raises `ZeroDivisionError` when
`expected == 0`, is modelled as an `Option`-valued function returning
`none` in that case.  Reason and action strings are modelled as tagged
constructors carrying their numeric payloads; the surrounding f-string
text is presentation-layer formatting.
-/

/-- ASCII lower-casing of one character, as Python's `str.lower` acts on
the sector/time-of-day strings of this program. -/
def lowerChar (c : Char) : Char :=
  if c.toNat < 65 ∨ 90 < c.toNat then c else Char.ofNat (c.toNat + 32)

/-- Python's `str.lower` on the ASCII strings this program compares. -/
def strLower (s : String) : String := ⟨s.data.map lowerChar⟩

/-- Round-half-to-even to the nearest integer, the rounding mode of
Python's built-in `round`. -/
def rndHalfEven (q : ℚ) : ℤ :=
  let f := ⌊q⌋
  let r := q - f
  if r < 1/2 then f
  else if 1/2 < r then f + 1
  else if f % 2 = 0 then f else f + 1

/-- Python's `round(q, n)`: round half to even at `n` decimal places. -/
def pyRound (q : ℚ) (n : ℕ) : ℚ :=
  (rndHalfEven (q * 10 ^ n) : ℚ) / 10 ^ n

/-- `EnergyRecord.__init__` (src/energyguard_ai.py lines 12-19): one
normalized snapshot of usage inputs. -/
structure EnergyRecord where
  usage : ℚ
  expected : ℚ
  sector : String
  time_of_day : String
  sunlight : Bool
  temperature : ℚ
deriving DecidableEq

/-- `EnergyHistory` (lines 23-39): four parallel append-only lists. -/
structure EnergyHistory where
  records : List EnergyRecord
  usage_log : List ℚ
  recovered_log : List ℚ
  remaining_log : List ℚ
deriving DecidableEq

/-- `EnergyHistory.__init__`: all four lists start empty. -/
def EnergyHistory.empty : EnergyHistory := ⟨[], [], [], []⟩

/-- `EnergyHistory.add` (lines 30-34): appends the record and its derived
values to the four parallel lists. -/
def EnergyHistory.add (h : EnergyHistory) (record : EnergyRecord)
    (recovered remaining : ℚ) : EnergyHistory :=
  { records := h.records ++ [record]
    usage_log := h.usage_log ++ [record.usage]
    recovered_log := h.recovered_log ++ [recovered]
    remaining_log := h.remaining_log ++ [remaining] }

/-- `EnergyHistory.last_usage` (lines 36-39): `None` when `records` is
empty, otherwise the `usage` of `records[-1]`. -/
def EnergyHistory.last_usage (h : EnergyHistory) : Option ℚ :=
  match h.records.getLast? with
  | none => none
  | some r => some r.usage

/-- `EnergyAnalytics.usage_ratio` (lines 45-47): `record.usage /
record.expected`.  The Python division raises `ZeroDivisionError` when
`expected == 0`; that failure is modelled as `none`. -/
def usage_ratio (record : EnergyRecord) : Option ℚ :=
  if record.expected = 0 then none else some (record.usage / record.expected)

/-- `EnergyAnalytics.detect_anomaly` (lines 49-54): `False` when the
history is empty, otherwise `record.usage > last * 1.25`. -/
def detect_anomaly (record : EnergyRecord) (history : EnergyHistory) : Bool :=
  match history.last_usage with
  | none => false
  | some last => decide (last * 1.25 < record.usage)

/-- The three alert strings returned by `EnergyAnalytics.alert_level`. -/
inductive AlertLevel
  | CRITICAL
  | WARNING
  | NORMAL
deriving DecidableEq

/-- `EnergyAnalytics.alert_level` (lines 56-62). -/
def alert_level (ratio : ℚ) (anomaly : Bool) : AlertLevel :=
  if 1.35 ≤ ratio ∨ anomaly = true then .CRITICAL
  else if 1.15 ≤ ratio then .WARNING
  else .NORMAL

/-- `EnergyAnalytics.efficiency_score` (lines 64-67):
`round(max(0, min(100, 100 - abs(ratio - 1) * 75)), 1)`. -/
def efficiency_score (ratio : ℚ) : ℚ :=
  let score := 100 - |ratio - 1| * 75
  pyRound (max 0 (min 100 score)) 1

/-- `EnergyAnalytics.waste_recovery` (lines 69-74): `wasted = 0.30 *
usage`, `recovered = 0.80 * wasted`, `remaining = wasted - recovered`,
each of the last two rounded to 2 decimals. -/
def waste_recovery (record : EnergyRecord) : ℚ × ℚ :=
  let wasted := 0.30 * record.usage
  let recovered := 0.80 * wasted
  let remaining := wasted - recovered
  (pyRound recovered 2, pyRound remaining 2)

/-- Tags for the reason strings appended by `KeenAI.analyze`. -/
inductive Reason
  | usageTimes (ratio : ℚ)
  | suddenSpike
  | highTemperature
  | sunlightUnderutilized
  | industrialLosses
deriving DecidableEq

/-- The four priority labels used by `KeenAI.analyze`. -/
inductive Priority
  | HIGH
  | IMMEDIATE
  | MEDIUM
  | LOW
deriving DecidableEq

/-- Tags for the action strings appended by `KeenAI.analyze`; the two
always-present actions carry the recovered/remaining amounts interpolated
into their f-strings. -/
inductive ActionText
  | recoverWasted (recovered : ℚ)
  | reserveStability (remaining : ℚ)
  | activateNullLine
  | reduceLoads
  | shiftBaseLoad
  | daylightMirroring
  | optimizeSchedule
  | operatingOptimally
deriving DecidableEq

/-- `KeenAI.analyze` (lines 79-122), translated statement by statement:
the imperative appends to `reasons`/`actions` and the `confidence += k`
updates become successive rebindings, in the source's order. -/
def analyze (record : EnergyRecord) (ratio : ℚ) (anomaly : Bool)
    (alert : AlertLevel) (recovered : ℚ × ℚ) :
    List Reason × List (Priority × ActionText) × ℕ :=
  let reasons : List Reason := []
  let actions : List (Priority × ActionText) := []
  let confidence : ℕ := 30
  let reasons := reasons ++ [Reason.usageTimes ratio]
  let reasons := if anomaly then reasons ++ [Reason.suddenSpike] else reasons
  let confidence := if anomaly then confidence + 15 else confidence
  let reasons :=
    if 30 < record.temperature then reasons ++ [Reason.highTemperature]
    else reasons
  let confidence :=
    if 30 < record.temperature then confidence + 10 else confidence
  let reasons :=
    if record.sunlight = true ∧ strLower record.time_of_day = "day" then
      reasons ++ [Reason.sunlightUnderutilized]
    else reasons
  let confidence :=
    if record.sunlight = true ∧ strLower record.time_of_day = "day" then
      confidence + 15
    else confidence
  let reasons :=
    if strLower record.sector ∈ (["factory", "power plant"] : List String) then
      reasons ++ [Reason.industrialLosses]
    else reasons
  let confidence :=
    if strLower record.sector ∈ (["factory", "power plant"] : List String) then
      confidence + 15
    else confidence
  let actions := actions ++
    [(Priority.HIGH, ActionText.recoverWasted recovered.1),
     (Priority.HIGH, ActionText.reserveStability recovered.2)]
  let actions :=
    if anomaly then actions ++ [(Priority.IMMEDIATE, ActionText.activateNullLine)]
    else actions
  let actions :=
    if alert = AlertLevel.CRITICAL then
      let actions := actions ++
        [(Priority.IMMEDIATE, ActionText.reduceLoads),
         (Priority.HIGH, ActionText.shiftBaseLoad)]
      if record.sunlight then
        actions ++ [(Priority.IMMEDIATE, ActionText.daylightMirroring)]
      else actions
    else if alert = AlertLevel.WARNING then
      actions ++ [(Priority.MEDIUM, ActionText.optimizeSchedule)]
    else
      actions ++ [(Priority.LOW, ActionText.operatingOptimally)]
  (reasons, actions, min 100 confidence)

/-! Helper lemmas about the rounding model. -/

/-- Rounding half to even moves a rational by at most 1/2. -/
theorem abs_rndHalfEven_sub_le (q : ℚ) : |(rndHalfEven q : ℚ) - q| ≤ 1/2 := by
  unfold rndHalfEven
  dsimp only
  have h0 : (⌊q⌋ : ℚ) ≤ q := Int.floor_le q
  have h1 : q < ⌊q⌋ + 1 := Int.lt_floor_add_one q
  split_ifs with ha hb hc <;> rw [abs_le] <;> constructor <;> push_cast <;> linarith

/-- Rounding half to even is monotone. -/
theorem rndHalfEven_mono {x y : ℚ} (h : x ≤ y) : rndHalfEven x ≤ rndHalfEven y := by
  unfold rndHalfEven
  dsimp only
  have hf : ⌊x⌋ ≤ ⌊y⌋ := Int.floor_le_floor h
  rcases eq_or_lt_of_le hf with heq | hlt
  · have heq' : ((⌊x⌋ : ℚ)) = ((⌊y⌋ : ℚ)) := by rw [heq]
    split_ifs <;> first | omega | linarith
  · split_ifs <;> omega

/-- Rounding to `n` decimal places is monotone. -/
theorem pyRound_mono {x y : ℚ} (n : ℕ) (h : x ≤ y) : pyRound x n ≤ pyRound y n := by
  unfold pyRound
  have hpos : (0:ℚ) < 10 ^ n := by positivity
  have hm : x * 10 ^ n ≤ y * 10 ^ n := mul_le_mul_of_nonneg_right h (le_of_lt hpos)
  have hz := rndHalfEven_mono hm
  have hz' : ((rndHalfEven (x * 10 ^ n) : ℚ)) ≤ (rndHalfEven (y * 10 ^ n) : ℚ) := by
    exact_mod_cast hz
  gcongr

/-- Rounding to `n` decimal places moves a rational by at most half a unit
in the last place. -/
theorem abs_pyRound_sub_le (q : ℚ) (n : ℕ) : |pyRound q n - q| ≤ 1 / (2 * 10 ^ n) := by
  unfold pyRound
  have hpos : (0:ℚ) < 10 ^ n := by positivity
  have h := abs_rndHalfEven_sub_le (q * 10 ^ n)
  have key : (rndHalfEven (q * 10 ^ n) : ℚ) / 10 ^ n - q
      = ((rndHalfEven (q * 10 ^ n) : ℚ) - q * 10 ^ n) / 10 ^ n := by
    field_simp
    ring
  rw [key, abs_div, abs_of_pos hpos, div_le_div_iff₀ hpos (by positivity)]
  calc |(rndHalfEven (q * 10 ^ n) : ℚ) - q * 10 ^ n| * (2 * 10 ^ n)
      ≤ (1/2) * (2 * 10 ^ n) := by
        exact mul_le_mul_of_nonneg_right h (by positivity)
    _ = 1 * 10 ^ n := by ring

/-- The confidence returned by `analyze` is the base 30 plus the four
independent bonuses, capped at 100.  Shared helper for the confidence
theorems. -/
theorem analyze_confidence_eq (record : EnergyRecord) (q : ℚ) (anomaly : Bool)
    (alert : AlertLevel) (recovered : ℚ × ℚ) :
    (analyze record q anomaly alert recovered).2.2 =
      min 100 (30 + (if anomaly = true then 15 else 0)
        + (if 30 < record.temperature then 10 else 0)
        + (if record.sunlight = true ∧ strLower record.time_of_day = "day" then 15 else 0)
        + (if strLower record.sector ∈ (["factory", "power plant"] : List String)
           then 15 else 0)) := by
  unfold analyze
  dsimp only
  split_ifs <;> norm_num

/-! Claim theorems. -/

/-- C1: the source computes `usage / expected` with no guard, so for a
reading with `expected == 0` the engine does not report the claimed
"expected usage must be positive" validation error: the division is
undefined (Python raises `ZeroDivisionError`, modelled here as `none`,
and the main loop's `except ValueError` does not catch it). -/
theorem usage_ratio_zero_expected :
    usage_ratio ⟨100, 0, "Home", "Day", false, 20⟩ = none := rfl

/-- C2: `detect_anomaly` is `false` on an empty history; against a
non-empty history with most recent record `prev` it is `true` iff
`usage > prev.usage * 1.25`, and at exactly the boundary it is `false`. -/
theorem detect_anomaly_spec (record : EnergyRecord) (history : EnergyHistory) :
    (history.records = [] → detect_anomaly record history = false) ∧
    (∀ prev : EnergyRecord, history.records.getLast? = some prev →
      ((detect_anomaly record history = true ↔ prev.usage * 1.25 < record.usage) ∧
       (record.usage = prev.usage * 1.25 → detect_anomaly record history = false))) := by
  constructor
  · intro h
    simp [detect_anomaly, EnergyHistory.last_usage, h]
  · intro prev hp
    constructor
    · simp [detect_anomaly, EnergyHistory.last_usage, hp]
    · intro heq
      simp [detect_anomaly, EnergyHistory.last_usage, hp, heq]

/-- C2 witness: empty history gives `false` even at usage 250; previous
usage 80 gives `false` at exactly 100 (= 80 * 1.25) and `true` at 101. -/
theorem detect_anomaly_spec_witness :
    detect_anomaly ⟨250, 100, "Home", "Day", false, 20⟩ EnergyHistory.empty = false ∧
    detect_anomaly ⟨100, 100, "Home", "Day", false, 20⟩
      (EnergyHistory.empty.add ⟨80, 80, "Home", "Day", false, 20⟩ 19.2 4.8) = false ∧
    detect_anomaly ⟨101, 100, "Home", "Day", false, 20⟩
      (EnergyHistory.empty.add ⟨80, 80, "Home", "Day", false, 20⟩ 19.2 4.8) = true := by
  refine ⟨(detect_anomaly_spec _ _).1 rfl, ?_, ?_⟩
  · exact ((detect_anomaly_spec ⟨100, 100, "Home", "Day", false, 20⟩
      (EnergyHistory.empty.add ⟨80, 80, "Home", "Day", false, 20⟩ 19.2 4.8)).2
      ⟨80, 80, "Home", "Day", false, 20⟩ (by simp [EnergyHistory.add, EnergyHistory.empty])).2
      (by norm_num)
  · exact ((detect_anomaly_spec ⟨101, 100, "Home", "Day", false, 20⟩
      (EnergyHistory.empty.add ⟨80, 80, "Home", "Day", false, 20⟩ 19.2 4.8)).2
      ⟨80, 80, "Home", "Day", false, 20⟩ (by simp [EnergyHistory.add, EnergyHistory.empty])).1.mpr
      (by norm_num)

/-- C3: `alert_level` is `CRITICAL` iff `ratio >= 1.35` or the anomaly
flag is set, `WARNING` iff neither of those and `ratio >= 1.15`, and
`NORMAL` otherwise; in particular ratio 1 with an anomaly is `CRITICAL`. -/
theorem alert_level_spec (q : ℚ) (anomaly : Bool) :
    (alert_level q anomaly = AlertLevel.CRITICAL ↔ 1.35 ≤ q ∨ anomaly = true) ∧
    (alert_level q anomaly = AlertLevel.WARNING ↔ q < 1.35 ∧ anomaly = false ∧ 1.15 ≤ q) ∧
    (alert_level q anomaly = AlertLevel.NORMAL ↔ q < 1.15 ∧ anomaly = false) ∧
    alert_level 1 true = AlertLevel.CRITICAL := by
  unfold alert_level
  rcases anomaly with _ | _ <;> split_ifs with h1 h2 <;> simp_all <;> linarith

/-- C4: the confidence is `min 100` of the base 30 plus the four
independent bonuses (15 anomaly, 10 temperature, 15 sunlight-and-day,
15 industrial sector), and turning any bonus condition on (the others
not turned off) never decreases it. -/
theorem analyze_confidence_spec :
    (∀ (record : EnergyRecord) (q : ℚ) (anomaly : Bool) (alert : AlertLevel)
        (recovered : ℚ × ℚ),
      (analyze record q anomaly alert recovered).2.2 =
        min 100 (30 + (if anomaly = true then 15 else 0)
          + (if 30 < record.temperature then 10 else 0)
          + (if record.sunlight = true ∧ strLower record.time_of_day = "day" then 15 else 0)
          + (if strLower record.sector ∈ (["factory", "power plant"] : List String)
             then 15 else 0))) ∧
    (∀ (r₁ r₂ : EnergyRecord) (q₁ q₂ : ℚ) (a₁ a₂ : Bool) (al₁ al₂ : AlertLevel)
        (rec₁ rec₂ : ℚ × ℚ),
      (a₁ = true → a₂ = true) →
      (30 < r₁.temperature → 30 < r₂.temperature) →
      (r₁.sunlight = true ∧ strLower r₁.time_of_day = "day" →
        r₂.sunlight = true ∧ strLower r₂.time_of_day = "day") →
      (strLower r₁.sector ∈ (["factory", "power plant"] : List String) →
        strLower r₂.sector ∈ (["factory", "power plant"] : List String)) →
      (analyze r₁ q₁ a₁ al₁ rec₁).2.2 ≤ (analyze r₂ q₂ a₂ al₂ rec₂).2.2) := by
  refine ⟨analyze_confidence_eq, ?_⟩
  intro r₁ r₂ q₁ q₂ a₁ a₂ al₁ al₂ rec₁ rec₂ h1 h2 h3 h4
  rw [analyze_confidence_eq, analyze_confidence_eq]
  have t1 : (if a₁ = true then 15 else 0) ≤ (if a₂ = true then 15 else 0) := by
    split_ifs with u v <;> first | omega | exact absurd (h1 u) v
  have t2 : (if 30 < r₁.temperature then 10 else 0)
      ≤ (if 30 < r₂.temperature then 10 else 0) := by
    split_ifs with u v <;> first | omega | exact absurd (h2 u) v
  have t3 : (if r₁.sunlight = true ∧ strLower r₁.time_of_day = "day" then 15 else 0)
      ≤ (if r₂.sunlight = true ∧ strLower r₂.time_of_day = "day" then 15 else 0) := by
    split_ifs with u v <;> first | omega | exact absurd (h3 u) v
  have t4 : (if strLower r₁.sector ∈ (["factory", "power plant"] : List String) then 15 else 0)
      ≤ (if strLower r₂.sector ∈ (["factory", "power plant"] : List String) then 15 else 0) := by
    split_ifs with u v <;> first | omega | exact absurd (h4 u) v
  exact min_le_min (le_refl 100)
    (add_le_add (add_le_add (add_le_add (add_le_add (le_refl 30) t1) t2) t3) t4)

/-- C4 witness: a record with no bonus condition scores at most as much
as one with all four bonus conditions on. -/
theorem analyze_confidence_spec_witness :
    (analyze ⟨100, 100, "Home", "Night", false, 20⟩ 1 false AlertLevel.NORMAL (24, 6)).2.2 ≤
      (analyze ⟨100, 100, "Factory", "Day", true, 35⟩ 1 true AlertLevel.CRITICAL (24, 6)).2.2 :=
  analyze_confidence_spec.2 _ _ _ _ _ _ _ _ _ _
    (fun _ => rfl) (fun _ => by norm_num) (fun _ => ⟨rfl, by decide⟩) (fun _ => by decide)

/-- C5: `waste_recovery` returns `round(0.24 * usage, 2)` and
`round(0.06 * usage, 2)`, each rounded independently (recovered is not
re-derived from a rounded `wasted`), and their sum is within one unit in
the last place (1/100) of `round(0.30 * usage, 2)`. -/
theorem waste_recovery_spec (record : EnergyRecord) :
    (waste_recovery record).1 = pyRound (0.24 * record.usage) 2 ∧
    (waste_recovery record).2 = pyRound (0.06 * record.usage) 2 ∧
    |(waste_recovery record).1 + (waste_recovery record).2
      - pyRound (0.30 * record.usage) 2| ≤ 1/100 := by
  have h1 : (0.80 : ℚ) * (0.30 * record.usage) = 0.24 * record.usage := by ring
  have h2 : (0.30 : ℚ) * record.usage - 0.80 * (0.30 * record.usage)
      = 0.06 * record.usage := by ring
  have e1 : (waste_recovery record).1 = pyRound (0.24 * record.usage) 2 := by
    unfold waste_recovery; dsimp only; rw [h1]
  have e2 : (waste_recovery record).2 = pyRound (0.06 * record.usage) 2 := by
    unfold waste_recovery; dsimp only; rw [h2]
  refine ⟨e1, e2, ?_⟩
  rw [e1, e2]
  set u := record.usage with hu
  set z1 := rndHalfEven (0.24 * u * 10 ^ 2) with hz1
  set z2 := rndHalfEven (0.06 * u * 10 ^ 2) with hz2
  set z3 := rndHalfEven (0.30 * u * 10 ^ 2) with hz3
  have b1 := abs_rndHalfEven_sub_le (0.24 * u * 10 ^ 2)
  have b2 := abs_rndHalfEven_sub_le (0.06 * u * 10 ^ 2)
  have b3 := abs_rndHalfEven_sub_le (0.30 * u * 10 ^ 2)
  rw [← hz1] at b1
  rw [← hz2] at b2
  rw [← hz3] at b3
  have habs : |((z1 + z2 - z3 : ℤ) : ℚ)| ≤ 3/2 := by
    rcases abs_le.mp b1 with ⟨l1, r1⟩
    rcases abs_le.mp b2 with ⟨l2, r2⟩
    rcases abs_le.mp b3 with ⟨l3, r3⟩
    rw [abs_le]
    push_cast
    constructor <;> linarith
  have hint : |z1 + z2 - z3| ≤ 1 := by
    have h2' : |((z1 + z2 - z3 : ℤ) : ℚ)| < 2 := lt_of_le_of_lt habs (by norm_num)
    rw [← Int.cast_abs] at h2'
    have h3' : |z1 + z2 - z3| < 2 := by exact_mod_cast h2'
    omega
  have goal_eq : pyRound (0.24 * u) 2 + pyRound (0.06 * u) 2 - pyRound (0.30 * u) 2
      = ((z1 + z2 - z3 : ℤ) : ℚ) / 10 ^ 2 := by
    unfold pyRound
    rw [← hz1, ← hz2, ← hz3]
    push_cast
    ring
  rw [goal_eq, abs_div]
  rw [abs_of_pos (by norm_num : (0:ℚ) < 10 ^ 2)]
  rw [div_le_div_iff₀ (by norm_num) (by norm_num)]
  rw [← Int.cast_abs]
  have hc : ((|z1 + z2 - z3| : ℤ) : ℚ) ≤ 1 := by exact_mod_cast hint
  linarith

/-- C6: `efficiency_score` is the clamp of `100 - |ratio - 1| * 75` to
[0, 100] rounded to one decimal, symmetric about ratio 1, monotonically
decreasing in `|ratio - 1|`, exactly 100 at ratio 1, and every reading
with `usage == expected` whose ratio is defined has ratio 1. -/
theorem efficiency_score_spec :
    (∀ q : ℚ, efficiency_score q = pyRound (max 0 (min 100 (100 - |q - 1| * 75))) 1) ∧
    (∀ d : ℚ, efficiency_score (1 + d) = efficiency_score (1 - d)) ∧
    (∀ q₁ q₂ : ℚ, |q₁ - 1| ≤ |q₂ - 1| → efficiency_score q₂ ≤ efficiency_score q₁) ∧
    efficiency_score 1 = 100 ∧
    (∀ record : EnergyRecord, record.usage = record.expected →
      ∀ q : ℚ, usage_ratio record = some q → q = 1) := by
  refine ⟨fun q => rfl, ?_, ?_, ?_, ?_⟩
  · intro d
    unfold efficiency_score
    dsimp only
    have habs : |(1 : ℚ) + d - 1| = |1 - d - 1| := by
      rw [show (1:ℚ) + d - 1 = d by ring, show (1:ℚ) - d - 1 = -d by ring, abs_neg]
    rw [habs]
  · intro q₁ q₂ h
    unfold efficiency_score
    dsimp only
    apply pyRound_mono
    apply max_le_max (le_refl 0)
    apply min_le_min (le_refl 100)
    linarith [mul_le_mul_of_nonneg_right h (by norm_num : (0:ℚ) ≤ 75)]
  · unfold efficiency_score pyRound rndHalfEven; norm_num
  · intro record h q hq
    unfold usage_ratio at hq
    by_cases hz : record.expected = 0
    · simp [hz] at hq
    · rw [if_neg hz] at hq
      have hq' := Option.some.inj hq
      rw [← hq', h, div_self hz]

/-- C6 witness: the score at ratio 1.2 is at most the score at 1.1, and
the reading with usage = expected = 5 has ratio exactly 1. -/
theorem efficiency_score_spec_witness :
    efficiency_score 1.2 ≤ efficiency_score 1.1 ∧ (1 : ℚ) = 1 :=
  ⟨efficiency_score_spec.2.2.1 1.1 1.2 (by
      rw [show (1.1:ℚ) - 1 = 0.1 by norm_num, show (1.2:ℚ) - 1 = 0.2 by norm_num,
        abs_of_pos (by norm_num : (0:ℚ) < 0.1), abs_of_pos (by norm_num : (0:ℚ) < 0.2)]
      norm_num),
   efficiency_score_spec.2.2.2.2 ⟨5, 5, "Home", "Day", false, 20⟩ rfl 1
     (by unfold usage_ratio; norm_num)⟩

/-- C7 counterexample: the sector string "PowerPlant" matches
"PowerPlant" case-insensitively, yet `analyze` appends no
industrial-losses reason and adds nothing to the confidence, because the
source compares against "power plant" with a space. -/
theorem analyze_sector_counterexample :
    strLower "PowerPlant" = "powerplant" ∧
    Reason.industrialLosses ∉
      (analyze ⟨100, 100, "PowerPlant", "Night", false, 20⟩ 1 false
        AlertLevel.NORMAL (24, 6)).1 ∧
    (analyze ⟨100, 100, "PowerPlant", "Night", false, 20⟩ 1 false
      AlertLevel.NORMAL (24, 6)).2.2 = 30 := by
  refine ⟨rfl, ?_, ?_⟩ <;> decide

/-- C7 (amended): `analyze` appends the industrial-losses reason and adds
15 to the confidence exactly for sectors that lower-case to "factory" or
"power plant" (with the space); every other sector string gets neither,
silently. -/
theorem analyze_sector_spec (record : EnergyRecord) (q : ℚ) (anomaly : Bool)
    (alert : AlertLevel) (recovered : ℚ × ℚ) :
    (Reason.industrialLosses ∈ (analyze record q anomaly alert recovered).1 ↔
      strLower record.sector = "factory" ∨ strLower record.sector = "power plant") ∧
    ((strLower record.sector = "factory" ∨ strLower record.sector = "power plant") →
      (analyze record q anomaly alert recovered).2.2 =
        (analyze { record with sector := "Home" } q anomaly alert recovered).2.2 + 15) ∧
    (¬(strLower record.sector = "factory" ∨ strLower record.sector = "power plant") →
      (analyze record q anomaly alert recovered).2.2 =
        (analyze { record with sector := "Home" } q anomaly alert recovered).2.2) := by
  have hc : strLower record.sector ∈ (["factory", "power plant"] : List String) ↔
      strLower record.sector = "factory" ∨ strLower record.sector = "power plant" := by
    simp
  have hhome : ¬ (strLower "Home" ∈ (["factory", "power plant"] : List String)) := by decide
  refine ⟨?_, ?_, ?_⟩
  · unfold analyze
    dsimp only
    by_cases h : strLower record.sector ∈ (["factory", "power plant"] : List String)
    · rw [if_pos h]
      simp only [List.mem_append, List.mem_singleton]
      simp [hc.mp h]
    · rw [if_neg h]
      rw [hc] at h
      simp only [h, iff_false]
      split_ifs <;> simp
  · intro h
    rw [analyze_confidence_eq, analyze_confidence_eq]
    dsimp only
    rw [if_pos (hc.mpr h), if_neg hhome]
    split_ifs <;> omega
  · intro h
    rw [analyze_confidence_eq, analyze_confidence_eq]
    dsimp only
    rw [if_neg (fun hm => h (hc.mp hm)), if_neg hhome]

/-- C7 witness: "FACTORY" gets the industrial reason, "Power Plant" adds
exactly 15 over "Home", and the unmatched sector "School" adds nothing. -/
theorem analyze_sector_spec_witness :
    Reason.industrialLosses ∈
      (analyze ⟨100, 100, "FACTORY", "Night", false, 20⟩ 1 false
        AlertLevel.NORMAL (24, 6)).1 ∧
    (analyze ⟨100, 100, "Power Plant", "Night", false, 20⟩ 1 false
      AlertLevel.NORMAL (24, 6)).2.2 =
      (analyze ⟨100, 100, "Home", "Night", false, 20⟩ 1 false
        AlertLevel.NORMAL (24, 6)).2.2 + 15 ∧
    (analyze ⟨100, 100, "School", "Night", false, 20⟩ 1 false
      AlertLevel.NORMAL (24, 6)).2.2 =
      (analyze ⟨100, 100, "Home", "Night", false, 20⟩ 1 false
        AlertLevel.NORMAL (24, 6)).2.2 :=
  ⟨(analyze_sector_spec ⟨100, 100, "FACTORY", "Night", false, 20⟩ 1 false
      AlertLevel.NORMAL (24, 6)).1.mpr (Or.inl (by decide)),
   (analyze_sector_spec ⟨100, 100, "Power Plant", "Night", false, 20⟩ 1 false
      AlertLevel.NORMAL (24, 6)).2.1 (Or.inr (by decide)),
   (analyze_sector_spec ⟨100, 100, "School", "Night", false, 20⟩ 1 false
      AlertLevel.NORMAL (24, 6)).2.2 (by decide)⟩

/-- C8: `EnergyHistory.add` appends exactly one entry to each of the four
parallel lists, preserving insertion order; `last_usage` then returns the
usage of the record just added, and is `none` on any empty history. -/
theorem history_add_spec (h : EnergyHistory) (record : EnergyRecord)
    (recovered remaining : ℚ) :
    (h.add record recovered remaining).records = h.records ++ [record] ∧
    (h.add record recovered remaining).usage_log = h.usage_log ++ [record.usage] ∧
    (h.add record recovered remaining).recovered_log = h.recovered_log ++ [recovered] ∧
    (h.add record recovered remaining).remaining_log = h.remaining_log ++ [remaining] ∧
    (h.add record recovered remaining).records.length = h.records.length + 1 ∧
    (h.add record recovered remaining).usage_log.length = h.usage_log.length + 1 ∧
    (h.add record recovered remaining).recovered_log.length = h.recovered_log.length + 1 ∧
    (h.add record recovered remaining).remaining_log.length = h.remaining_log.length + 1 ∧
    (h.add record recovered remaining).last_usage = some record.usage ∧
    (∀ ul cl rl : List ℚ, (EnergyHistory.mk [] ul cl rl).last_usage = none) := by
  simp [EnergyHistory.add, EnergyHistory.last_usage]

/-- C9, end-to-end scenario A: usage 100, expected 100, sector Home,
Day, no sunlight, 20 °C, empty history: ratio 1, no anomaly, NORMAL
alert, score 100, recovered 24, remaining 6, confidence 30, and exactly
the two always-present HIGH actions plus the single NORMAL LOW action. -/
theorem scenario_A :
    usage_ratio ⟨100, 100, "Home", "Day", false, 20⟩ = some 1 ∧
    detect_anomaly ⟨100, 100, "Home", "Day", false, 20⟩ EnergyHistory.empty = false ∧
    alert_level 1 false = AlertLevel.NORMAL ∧
    efficiency_score 1 = 100 ∧
    waste_recovery ⟨100, 100, "Home", "Day", false, 20⟩ = (24, 6) ∧
    analyze ⟨100, 100, "Home", "Day", false, 20⟩ 1 false AlertLevel.NORMAL (24, 6) =
      ([Reason.usageTimes 1],
       [(Priority.HIGH, ActionText.recoverWasted 24),
        (Priority.HIGH, ActionText.reserveStability 6),
        (Priority.LOW, ActionText.operatingOptimally)], 30) := by
  refine ⟨?_, rfl, ?_, ?_, ?_, ?_⟩
  · unfold usage_ratio; norm_num
  · unfold alert_level; norm_num
  · unfold efficiency_score pyRound rndHalfEven; norm_num
  · unfold waste_recovery pyRound rndHalfEven; norm_num
  · decide

/-- C10: for every input the confidence returned by `analyze` lies in
[30, 85] and never reaches 100: the cap `min 100` never binds, so the
result equals the uncapped sum of the base and the bonuses. -/
theorem analyze_confidence_bounds (record : EnergyRecord) (q : ℚ) (anomaly : Bool)
    (alert : AlertLevel) (recovered : ℚ × ℚ) :
    30 ≤ (analyze record q anomaly alert recovered).2.2 ∧
    (analyze record q anomaly alert recovered).2.2 ≤ 85 ∧
    (analyze record q anomaly alert recovered).2.2 < 100 ∧
    (analyze record q anomaly alert recovered).2.2 =
      30 + (if anomaly = true then 15 else 0)
        + (if 30 < record.temperature then 10 else 0)
        + (if record.sunlight = true ∧ strLower record.time_of_day = "day" then 15 else 0)
        + (if strLower record.sector ∈ (["factory", "power plant"] : List String)
           then 15 else 0) := by
  rw [analyze_confidence_eq]
  split_ifs <;> omega
